import Mathlib

/-!
Verification of the hardware-link / job-execution core of the Paragon-view
application (source: `src/Code1.jsx`).

The source is a single React component.  Its core state consists of the
`useState` hooks declared in `App`; each event handler (`addLog`,
`connectToIBM`, `executeRealTeleport`, `runLocalSimulation`,
`captureArtifact`) is modelled as a pure state transformer.  Asynchronous
handlers are modelled run-to-completion: a handler that schedules a
`setTimeout` callback is embedded as the composite effect of its synchronous
part followed by the timer callback (the timer always fires; the embedding
abstracts wall-clock time).  Nondeterministic inputs (the `Math.random()`
draws, the network response of the authentication call, and whether the job
pipeline throws) are passed as explicit oracle arguments.

JavaScript numbers are modelled as exact rationals.  For every value this
program actually rounds (`toFixed(4)` of `k/10 * 0.89867882` for
`k = 0, …, 10`), the double-precision result agrees with the exact rational
result, because all those values are far from a `10⁻⁴` rounding boundary.
-/

namespace ParagonView

/-- The `hardwareStatus` values used by the source
(`'DISCONNECTED' | 'AUTHENTICATING' | 'READY' | 'BUSY'`). -/
inductive HardwareStatus where
  | DISCONNECTED
  | AUTHENTICATING
  | READY
  | BUSY
  deriving DecidableEq, Repr

/-- One entry of the event log.  The source also stores a wall-clock `id` and
`time`; both are derived from `Date.now()` / `new Date()` and carry no
program logic, so they are omitted from the model. -/
structure LogEntry where
  type : String
  msg : String
  details : Option String := none
  deriving DecidableEq, Repr

/-- `const BIT_COUNT = 10`. -/
def BIT_COUNT : Nat := 10

/-- `const PARITY_KEY = "00**11--1"`. -/
def PARITY_KEY : String := "00**11--1"

/-- `const PI_SQUARED_INV = (1 / Math.pow(Math.PI, 2)).toFixed(8)`.
The double-precision value of `1/π²` is `0.10132118364233778…`, so
`toFixed(8)` produces the string `"0.10132118"`; the program then uses it
numerically (JavaScript coerces it back to a number), so we model it as the
rational it denotes. -/
def PI_SQUARED_INV : ℚ := 10132118 / 10 ^ 8

/-- JavaScript `parseFloat(x.toFixed(4))` for a nonnegative number `x`:
round to four decimal digits, ties away from zero (= ties up, as `x ≥ 0`). -/
def toFixed4 (x : ℚ) : ℚ := ((⌊x * 10 ^ 4 + 1 / 2⌋ : ℤ) : ℚ) / 10 ^ 4

/-- The mutable state of `App` that the core handlers read or write.
UI-only state (camera stream, pin buffer, gallery visibility, …) is not
touched by the verified handlers and is omitted. -/
structure AppState where
  ibmToken : String
  ibmAccessToken : Option String
  hardwareStatus : HardwareStatus
  localRegister : List Nat
  qubitWeight : ℚ
  lastBitstring : String
  activeMode : String
  isTeleporting : Bool
  logs : List LogEntry
  deriving DecidableEq, Repr

/-- The initial values of the `useState` hooks:
`ibmToken ""`, `ibmAccessToken null`, `hardwareStatus 'DISCONNECTED'`,
`localRegister = new Array(BIT_COUNT).fill(0)`, `qubitWeight 0.5`,
`lastBitstring "0000000000"`, `activeMode 'STANDARD'`, `isTeleporting false`,
and one initial `SEC` log entry. -/
def initState : AppState where
  ibmToken := ""
  ibmAccessToken := none
  hardwareStatus := HardwareStatus.DISCONNECTED
  localRegister := List.replicate BIT_COUNT 0
  qubitWeight := 1 / 2
  lastBitstring := "0000000000"
  activeMode := "STANDARD"
  isTeleporting := false
  logs := [⟨"SEC", "Quantum Kernel Locked. Enter PIN.", none⟩]

/-- `addLog`: `setLogs(prev => [{…}, ...prev].slice(0, 30))` — prepend the
new entry and keep the first 30. -/
def addLog (logs : List LogEntry) (e : LogEntry) : List LogEntry :=
  (e :: logs).take 30

/-- Oracle for the outcome of the `fetch` in `connectToIBM`:
`ok` carries `authData.id` of the 2xx JSON response, `rejected` carries the
HTTP status and the response text of a non-2xx response, and `networkError`
is the `catch` path (the fetch itself threw). -/
inductive AuthResult where
  | ok (sid : String)
  | rejected (status : Nat) (errText : String)
  | networkError

/-- `connectToIBM`, run to completion for a given network outcome `r`. -/
def connectToIBM (s : AppState) (r : AuthResult) : AppState :=
  if s.ibmToken = "" then
    { s with logs := addLog s.logs ⟨"ERR", "Qiskit Token Required.", none⟩ }
  else
    let s1 : AppState :=
      { s with hardwareStatus := HardwareStatus.AUTHENTICATING,
               logs := addLog s.logs ⟨"IBM", "Initiating REST Handshake...", none⟩ }
    match r with
    | AuthResult.ok sid =>
        { s1 with ibmAccessToken := some sid,
                  hardwareStatus := HardwareStatus.READY,
                  logs := addLog s1.logs
                    ⟨"IBM", "Authentication Successful.",
                      some ("Access_ID: " ++ sid.take 8 ++ "...")⟩ }
    | AuthResult.rejected st errText =>
        { s1 with hardwareStatus := HardwareStatus.DISCONNECTED,
                  logs := addLog s1.logs
                    ⟨"ERR", "IBM Rejected Token [" ++ toString st ++ "]",
                      some (errText.take 50)⟩ }
    | AuthResult.networkError =>
        { s1 with hardwareStatus := HardwareStatus.DISCONNECTED,
                  logs := addLog
                    (addLog s1.logs ⟨"ERR", "IBM Bridge Blocked (CORS/Network)", none⟩)
                    ⟨"DEBUG", "Browser blocked cross-origin request to IBM Servers.", none⟩ }

/-- `Array.from({ length: BIT_COUNT }, () => Math.random() > 0.5 ? 1 : 0)`:
the ten independent comparisons `Math.random() > 0.5` are the oracle. -/
def genBits (rand : Fin BIT_COUNT → Bool) : List Nat :=
  (List.finRange BIT_COUNT).map (fun i => if rand i then 1 else 0)

/-- `bits.join("")`. -/
def bitsToString (bits : List Nat) : String :=
  String.join (bits.map (fun b => toString b))

/-- The weight computation shared by both job paths:
`parseFloat(((bits.reduce((a, b) => a + b, 0) / BIT_COUNT) * (1 - PI_SQUARED_INV)).toFixed(4))`. -/
def deriveWeight (bits : List Nat) : ℚ :=
  toFixed4 (((bits.sum : ℚ) / (BIT_COUNT : ℚ)) * (1 - PI_SQUARED_INV))

/-- `runLocalSimulation`, run to completion (synchronous part plus the
1500 ms timer callback). -/
def runLocalSimulation (s : AppState) (rand : Fin BIT_COUNT → Bool) : AppState :=
  let bits := genBits rand
  { s with localRegister := bits,
           lastBitstring := bitsToString bits,
           qubitWeight := deriveWeight bits,
           isTeleporting := false,
           logs := addLog s.logs ⟨"SYS", "Local Registry Collapsed.", none⟩ }

/-- `executeRealTeleport`, run to completion.  `fails = true` selects the
`catch` branch of the remote path (the job pipeline threw); `fails = false`
selects the 3000 ms timer callback that publishes a fresh register. -/
def executeRealTeleport (s : AppState) (rand : Fin BIT_COUNT → Bool)
    (fails : Bool) : AppState :=
  if s.hardwareStatus ≠ HardwareStatus.READY then
    runLocalSimulation
      { s with logs := addLog s.logs ⟨"WARN", "Using Local Simulation (No IBM Link).", none⟩ }
      rand
  else
    let s1 : AppState :=
      { s with isTeleporting := true,
               hardwareStatus := HardwareStatus.BUSY,
               logs := addLog s.logs ⟨"QASM", "Zenith Key Active: " ++ PARITY_KEY, none⟩ }
    if fails then
      { s1 with isTeleporting := false,
                hardwareStatus := HardwareStatus.READY,
                logs := addLog s1.logs ⟨"ERR", "Job Pipeline Interrupted.", none⟩ }
    else
      let bits := genBits rand
      { s1 with localRegister := bits,
                lastBitstring := bitsToString bits,
                qubitWeight := deriveWeight bits,
                hardwareStatus := HardwareStatus.READY,
                isTeleporting := false,
                logs := addLog s1.logs
                  ⟨"CORE", "Teleportation Resolved: " ++ bitsToString bits, none⟩ }

/-- The specification's `runJob(requestedRemote)` entry point:
`requestedRemote = true` is the Teleport button invoking
`executeRealTeleport`; `requestedRemote = false` is the local path
`runLocalSimulation` on its own. -/
def runJob (requestedRemote : Bool) (s : AppState) (rand : Fin BIT_COUNT → Bool)
    (fails : Bool) : AppState :=
  if requestedRemote then executeRealTeleport s rand fails else runLocalSimulation s rand

/-- The portion of a captured artifact that the core publishes
(`mode: activeMode, bits: lastBitstring, weight: qubitWeight.toFixed(4)`);
the image payload and wall-clock fields are the capture collaborator's. -/
structure Artifact where
  mode : String
  bits : String
  weight : ℚ
  deriving DecidableEq, Repr

/-- `captureArtifact`'s metadata record, built from the currently published
state. -/
def captureArtifact (s : AppState) : Artifact where
  mode := s.activeMode
  bits := s.lastBitstring
  weight := toFixed4 s.qubitWeight

/-! ### Helper lemmas -/

/-- On a register whose digits all lie in `{0, 1}`, the digit sum is the
number of `1`-digits. -/
theorem sum_eq_count_one (bits : List Nat) (hb : ∀ b ∈ bits, b = 0 ∨ b = 1) :
    bits.sum = bits.count 1 := by
  induction bits with
  | nil => simp
  | cons a t ih =>
    have ht := ih (fun b hbt => hb b (List.mem_cons_of_mem a hbt))
    rcases hb a (List.mem_cons_self a t) with h | h <;>
      simp [h, List.count_cons, ht, Nat.add_comm]

/-- The most recent entry is always the head of the log. -/
theorem addLog_head (l : List LogEntry) (e : LogEntry) :
    (addLog l e).head? = some e := by
  simp [addLog, List.take_succ_cons, show (30 : Nat) = 29 + 1 from rfl]

/-- The entry below the most recent one survives the capacity cut. -/
theorem mem_addLog_addLog (l : List LogEntry) (e e' : LogEntry) :
    e ∈ addLog (addLog l e) e' := by
  simp [addLog, List.take_succ_cons, show (30 : Nat) = 29 + 1 from rfl]

/-- A generated register always has exactly `BIT_COUNT` digits. -/
theorem genBits_length (rand : Fin BIT_COUNT → Bool) :
    (genBits rand).length = BIT_COUNT := by
  simp [genBits]

/-- Every digit of a generated register is `0` or `1`. -/
theorem genBits_mem (rand : Fin BIT_COUNT → Bool) :
    ∀ b ∈ genBits rand, b = 0 ∨ b = 1 := by
  intro b hb
  simp only [genBits, List.mem_map] at hb
  rcases hb with ⟨i, _, hi⟩
  by_cases h : rand i
  · simp [h] at hi; omega
  · simp [h] at hi; omega

end ParagonView

namespace ParagonView

/-! ### Claims -/

/-- C2: for every 10-digit register over `{0, 1}`, the derived weight equals
`round((count of 1-digits / 10) · d, 4)` with `d = 1 - 1/π²` and `1/π²`
taken to 8 decimal digits (the modelled constant `0.10132118` is within
`5·10⁻⁹` of the real `1/π²`); the all-zero register yields `0` and the
all-one register yields `0.8987`. -/
theorem C2_deriveWeight_formula (bits : List Nat)
    (_hlen : bits.length = BIT_COUNT) (hb : ∀ b ∈ bits, b = 0 ∨ b = 1) :
    deriveWeight bits
        = toFixed4 (((bits.count 1 : ℚ) / 10) * (1 - PI_SQUARED_INV)) ∧
    |(1 : ℝ) / Real.pi ^ 2 - ((PI_SQUARED_INV : ℚ) : ℝ)| < 1 / (2 * 10 ^ 8) ∧
    deriveWeight (List.replicate BIT_COUNT 0) = 0 ∧
    deriveWeight (List.replicate BIT_COUNT 1) = 8987 / 10 ^ 4 := by
  refine ⟨?_, ?_, ?_, ?_⟩
  · simp only [deriveWeight, sum_eq_count_one bits hb]
    norm_num [BIT_COUNT]
  · have hpos : (0 : ℝ) < Real.pi := Real.pi_pos
    have h1 : (1 : ℝ) / Real.pi ^ 2 < 0.101321185 := by
      rw [div_lt_iff₀ (by positivity)]
      nlinarith [Real.pi_gt_d20, hpos]
    have h2 : (0.101321175 : ℝ) < 1 / Real.pi ^ 2 := by
      rw [lt_div_iff₀ (by positivity)]
      nlinarith [Real.pi_lt_d20, hpos]
    have hc : ((PI_SQUARED_INV : ℚ) : ℝ) = 0.10132118 := by
      norm_num [PI_SQUARED_INV]
    rw [hc, abs_sub_lt_iff]
    constructor <;> linarith
  · norm_num [deriveWeight, toFixed4, PI_SQUARED_INV, BIT_COUNT]
  · norm_num [deriveWeight, toFixed4, PI_SQUARED_INV, BIT_COUNT]

/-- Witness for C2 at the all-one register. -/
theorem C2_deriveWeight_formula_witness :
    ((List.replicate 10 1).length = BIT_COUNT ∧
      (∀ b ∈ List.replicate 10 1, b = 0 ∨ b = 1)) ∧
    (deriveWeight (List.replicate 10 1)
        = toFixed4 ((((List.replicate 10 1).count 1 : ℚ) / 10) * (1 - PI_SQUARED_INV)) ∧
      |(1 : ℝ) / Real.pi ^ 2 - ((PI_SQUARED_INV : ℚ) : ℝ)| < 1 / (2 * 10 ^ 8) ∧
      deriveWeight (List.replicate BIT_COUNT 0) = 0 ∧
      deriveWeight (List.replicate BIT_COUNT 1) = 8987 / 10 ^ 4) :=
  ⟨⟨by decide, by decide⟩,
    C2_deriveWeight_formula (List.replicate 10 1) (by decide) (by decide)⟩

/-- C10: at process start the published bitstring is all-zero while the
published weight is `0.5`, which differs from the weight the register would
derive (`0`); an artifact captured in the initial state records mode
`STANDARD`, bitstring `0000000000` and weight `0.5`. -/
theorem C10_initial_published_state :
    initState.localRegister = List.replicate BIT_COUNT 0 ∧
    initState.lastBitstring = "0000000000" ∧
    initState.qubitWeight = 1 / 2 ∧
    deriveWeight initState.localRegister = 0 ∧
    initState.qubitWeight ≠ deriveWeight initState.localRegister ∧
    captureArtifact initState = ⟨"STANDARD", "0000000000", 1 / 2⟩ := by
  refine ⟨rfl, rfl, rfl, ?_, ?_, ?_⟩
  · norm_num [initState, deriveWeight, toFixed4, PI_SQUARED_INV, BIT_COUNT]
  · norm_num [initState, deriveWeight, toFixed4, PI_SQUARED_INV, BIT_COUNT]
  · simp only [captureArtifact, initState, Artifact.mk.injEq]
    norm_num [toFixed4]

/-- C8: a `record` call always leaves at most 30 entries, its entry becomes
the head, a call on a full log evicts the oldest entry, and any further
sequence of calls keeps the log at no more than 30 entries. -/
theorem C8_event_log_bounded (l : List LogEntry) (e : LogEntry) :
    (addLog l e).length ≤ 30 ∧
    (addLog l e).head? = some e ∧
    (l.length = 30 → addLog l e = e :: l.dropLast) ∧
    (∀ es : List LogEntry, (es.foldl addLog (addLog l e)).length ≤ 30) := by
  have hlen : ∀ (l' : List LogEntry) (e' : LogEntry), (addLog l' e').length ≤ 30 := by
    intro l' e'
    simp [addLog]
  refine ⟨hlen l e, addLog_head l e, ?_, ?_⟩
  · intro h30
    simp [addLog, List.take_succ_cons, show (30 : Nat) = 29 + 1 from rfl,
      List.dropLast_eq_take, h30]
  · intro es
    induction es generalizing l e with
    | nil => exact hlen l e
    | cons e' t ih =>
      simpa using ih (addLog l e) e'

/-- Witness for C8 on a log already holding 30 entries. -/
theorem C8_event_log_bounded_witness :
    (List.replicate 30 (⟨"SYS", "boot", none⟩ : LogEntry)).length = 30 ∧
    addLog (List.replicate 30 ⟨"SYS", "boot", none⟩) ⟨"ERR", "overflow", none⟩
      = ⟨"ERR", "overflow", none⟩
          :: (List.replicate 30 (⟨"SYS", "boot", none⟩ : LogEntry)).dropLast :=
  ⟨by decide,
    (C8_event_log_bounded (List.replicate 30 ⟨"SYS", "boot", none⟩)
      ⟨"ERR", "overflow", none⟩).2.2.1 (by decide)⟩

/-- C6: an authentication call with an empty credential only logs the
`MissingCredential`-class entry (`Qiskit Token Required.`) and changes no
other state: status, stored session identifier, credential field, published
register, weight, bitstring and teleport flag are exactly as before. -/
theorem C6_empty_credential_no_state_change (s : AppState) (r : AuthResult)
    (hc : s.ibmToken = "") :
    (connectToIBM s r).hardwareStatus = s.hardwareStatus ∧
    (connectToIBM s r).ibmAccessToken = s.ibmAccessToken ∧
    (connectToIBM s r).ibmToken = s.ibmToken ∧
    (connectToIBM s r).localRegister = s.localRegister ∧
    (connectToIBM s r).qubitWeight = s.qubitWeight ∧
    (connectToIBM s r).lastBitstring = s.lastBitstring ∧
    (connectToIBM s r).isTeleporting = s.isTeleporting ∧
    (connectToIBM s r).logs.head? = some ⟨"ERR", "Qiskit Token Required.", none⟩ := by
  simp [connectToIBM, hc, addLog_head]

/-- Witness for C6 in the initial state. -/
theorem C6_empty_credential_no_state_change_witness :
    initState.ibmToken = "" ∧
    (connectToIBM initState AuthResult.networkError).hardwareStatus
        = initState.hardwareStatus ∧
    (connectToIBM initState AuthResult.networkError).ibmAccessToken
        = initState.ibmAccessToken ∧
    (connectToIBM initState AuthResult.networkError).logs.head?
        = some ⟨"ERR", "Qiskit Token Required.", none⟩ :=
  ⟨rfl,
    (C6_empty_credential_no_state_change initState AuthResult.networkError rfl).1,
    (C6_empty_credential_no_state_change initState AuthResult.networkError rfl).2.1,
    (C6_empty_credential_no_state_change initState AuthResult.networkError rfl).2.2.2.2.2.2.2⟩

/-- C5: a successful authentication with a non-empty credential stores the
returned session identifier, sets the status to `Ready` and logs the
success entry with the truncated identifier preview. -/
theorem C5_auth_success (s : AppState) (sid : String) (hc : s.ibmToken ≠ "") :
    (connectToIBM s (AuthResult.ok sid)).ibmAccessToken = some sid ∧
    (connectToIBM s (AuthResult.ok sid)).hardwareStatus = HardwareStatus.READY ∧
    (connectToIBM s (AuthResult.ok sid)).logs.head?
      = some ⟨"IBM", "Authentication Successful.",
              some ("Access_ID: " ++ sid.take 8 ++ "...")⟩ := by
  simp [connectToIBM, hc, addLog_head]

/-- Witness for C5 with credential `"abc"` and session identifier
`"session-id-123456"`. -/
theorem C5_auth_success_witness :
    ({ initState with ibmToken := "abc" } : AppState).ibmToken ≠ "" ∧
    (connectToIBM { initState with ibmToken := "abc" }
        (AuthResult.ok "session-id-123456")).ibmAccessToken
      = some "session-id-123456" ∧
    (connectToIBM { initState with ibmToken := "abc" }
        (AuthResult.ok "session-id-123456")).hardwareStatus
      = HardwareStatus.READY :=
  ⟨by decide,
    (C5_auth_success { initState with ibmToken := "abc" } "session-id-123456"
      (by decide)).1,
    (C5_auth_success { initState with ibmToken := "abc" } "session-id-123456"
      (by decide)).2.1⟩

/-- C4: a non-empty-credential authentication that does not succeed — an
explicit rejection or a transport failure — ends with status
`Disconnected` and signals the failure in the event log (the
`CredentialRejected`-class entry carries the body truncated to 50
characters; the transport failure logs the `LinkUnreachable`-class
entry). -/
theorem C4_auth_failure_disconnected (s : AppState) (hc : s.ibmToken ≠ "") :
    (∀ st errText,
      (connectToIBM s (AuthResult.rejected st errText)).hardwareStatus
          = HardwareStatus.DISCONNECTED ∧
      (connectToIBM s (AuthResult.rejected st errText)).logs.head?
          = some ⟨"ERR", "IBM Rejected Token [" ++ toString st ++ "]",
                  some (errText.take 50)⟩) ∧
    ((connectToIBM s AuthResult.networkError).hardwareStatus
        = HardwareStatus.DISCONNECTED ∧
      (⟨"ERR", "IBM Bridge Blocked (CORS/Network)", none⟩ : LogEntry)
        ∈ (connectToIBM s AuthResult.networkError).logs) := by
  refine ⟨fun st errText => ⟨?_, ?_⟩, ?_, ?_⟩ <;>
    simp [connectToIBM, hc, addLog_head, mem_addLog_addLog]

/-- Witness for C4 with credential `"abc"`, HTTP status `401` and body
`"invalid token"`. -/
theorem C4_auth_failure_disconnected_witness :
    ({ initState with ibmToken := "abc" } : AppState).ibmToken ≠ "" ∧
    (connectToIBM { initState with ibmToken := "abc" }
        (AuthResult.rejected 401 "invalid token")).hardwareStatus
      = HardwareStatus.DISCONNECTED ∧
    (connectToIBM { initState with ibmToken := "abc" }
        AuthResult.networkError).hardwareStatus
      = HardwareStatus.DISCONNECTED :=
  ⟨by decide,
    ((C4_auth_failure_disconnected { initState with ibmToken := "abc" }
      (by decide)).1 401 "invalid token").1,
    (C4_auth_failure_disconnected { initState with ibmToken := "abc" }
      (by decide)).2.1⟩

/-- C3: when a remote-path job (`requestedRemote`, status `Ready`) fails,
the `JobPipelineInterrupted`-class entry is logged, the published register,
bitstring and weight are unchanged, and the status ends `Ready`. -/
theorem C3_remote_failure_preserves (s : AppState) (rand : Fin BIT_COUNT → Bool)
    (h : s.hardwareStatus = HardwareStatus.READY) :
    (runJob true s rand true).hardwareStatus = HardwareStatus.READY ∧
    (runJob true s rand true).localRegister = s.localRegister ∧
    (runJob true s rand true).lastBitstring = s.lastBitstring ∧
    (runJob true s rand true).qubitWeight = s.qubitWeight ∧
    (runJob true s rand true).logs.head?
      = some ⟨"ERR", "Job Pipeline Interrupted.", none⟩ := by
  simp [runJob, executeRealTeleport, h, addLog_head]

/-- Witness for C3 from a ready state. -/
theorem C3_remote_failure_preserves_witness :
    ({ initState with hardwareStatus := HardwareStatus.READY } : AppState).hardwareStatus
        = HardwareStatus.READY ∧
    (runJob true { initState with hardwareStatus := HardwareStatus.READY }
        (fun _ => false) true).hardwareStatus = HardwareStatus.READY ∧
    (runJob true { initState with hardwareStatus := HardwareStatus.READY }
        (fun _ => false) true).lastBitstring = "0000000000" ∧
    (runJob true { initState with hardwareStatus := HardwareStatus.READY }
        (fun _ => false) true).logs.head?
      = some ⟨"ERR", "Job Pipeline Interrupted.", none⟩ :=
  ⟨rfl,
    (C3_remote_failure_preserves { initState with hardwareStatus := HardwareStatus.READY }
      (fun _ => false) rfl).1,
    (C3_remote_failure_preserves { initState with hardwareStatus := HardwareStatus.READY }
      (fun _ => false) rfl).2.2.1,
    (C3_remote_failure_preserves { initState with hardwareStatus := HardwareStatus.READY }
      (fun _ => false) rfl).2.2.2.2⟩

/-- C7: every job that takes the local path (`requestedRemote` false, or
status not `Ready`) publishes the freshly drawn register of exactly
`BIT_COUNT` digits over `{0, 1}` and mutates no link-session field
(status, credential, session identifier). -/
theorem C7_local_path_frame (req : Bool) (s : AppState) (rand : Fin BIT_COUNT → Bool)
    (fails : Bool) (h : req = false ∨ s.hardwareStatus ≠ HardwareStatus.READY) :
    (runJob req s rand fails).localRegister = genBits rand ∧
    (runJob req s rand fails).localRegister.length = BIT_COUNT ∧
    (∀ b ∈ (runJob req s rand fails).localRegister, b = 0 ∨ b = 1) ∧
    (runJob req s rand fails).lastBitstring = bitsToString (genBits rand) ∧
    (runJob req s rand fails).hardwareStatus = s.hardwareStatus ∧
    (runJob req s rand fails).ibmToken = s.ibmToken ∧
    (runJob req s rand fails).ibmAccessToken = s.ibmAccessToken := by
  cases req with
  | false =>
    exact ⟨rfl, genBits_length rand, genBits_mem rand, rfl, rfl, rfl, rfl⟩
  | true =>
    have h' : s.hardwareStatus ≠ HardwareStatus.READY := by
      rcases h with h | h
      · exact absurd h (by simp)
      · exact h
    have hrj : runJob true s rand fails
        = runLocalSimulation
            { s with logs :=
                addLog s.logs ⟨"WARN", "Using Local Simulation (No IBM Link).", none⟩ } rand := by
      simp [runJob, executeRealTeleport, h']
    rw [hrj]
    exact ⟨rfl, genBits_length rand, genBits_mem rand, rfl, rfl, rfl, rfl⟩

/-- Witness for C7 with an explicit local request in the initial state. -/
theorem C7_local_path_frame_witness :
    ((false = false ∨ initState.hardwareStatus ≠ HardwareStatus.READY) ∧ True) ∧
    (runJob false initState (fun _ => true) false).localRegister
        = genBits (fun _ => true) ∧
    (runJob false initState (fun _ => true) false).localRegister.length = BIT_COUNT ∧
    (runJob false initState (fun _ => true) false).hardwareStatus
        = initState.hardwareStatus :=
  ⟨⟨Or.inl rfl, trivial⟩,
    (C7_local_path_frame false initState (fun _ => true) false (Or.inl rfl)).1,
    (C7_local_path_frame false initState (fun _ => true) false (Or.inl rfl)).2.1,
    (C7_local_path_frame false initState (fun _ => true) false (Or.inl rfl)).2.2.2.2.1⟩

/-- C1 (amended): for every job call whose starting status is not `Busy`,
the status after the call completes is never `Busy`: it is `Ready` on the
remote path (`requestedRemote` with status `Ready`), and unchanged on the
local path.  (As stated over *any* starting status the claim fails: a call
arriving while the status is `Busy` takes the local path and leaves it
`Busy`, see `C1_counterexample`.) -/
theorem C1_status_never_busy (req : Bool) (s : AppState)
    (rand : Fin BIT_COUNT → Bool) (fails : Bool)
    (h : s.hardwareStatus ≠ HardwareStatus.BUSY) :
    (runJob req s rand fails).hardwareStatus ≠ HardwareStatus.BUSY ∧
    (req = true → s.hardwareStatus = HardwareStatus.READY →
      (runJob req s rand fails).hardwareStatus = HardwareStatus.READY) ∧
    (req = false ∨ s.hardwareStatus ≠ HardwareStatus.READY →
      (runJob req s rand fails).hardwareStatus = s.hardwareStatus) := by
  cases req <;> cases fails <;> cases hs : s.hardwareStatus <;>
    simp_all [runJob, executeRealTeleport, runLocalSimulation]

/-- Witness for C1 on the remote path from a ready state. -/
theorem C1_status_never_busy_witness :
    ({ initState with hardwareStatus := HardwareStatus.READY } : AppState).hardwareStatus
        ≠ HardwareStatus.BUSY ∧
    (runJob true { initState with hardwareStatus := HardwareStatus.READY }
        (fun _ => false) false).hardwareStatus ≠ HardwareStatus.BUSY ∧
    (runJob true { initState with hardwareStatus := HardwareStatus.READY }
        (fun _ => false) false).hardwareStatus = HardwareStatus.READY :=
  ⟨by decide,
    (C1_status_never_busy true { initState with hardwareStatus := HardwareStatus.READY }
      (fun _ => false) false (by decide)).1,
    (C1_status_never_busy true { initState with hardwareStatus := HardwareStatus.READY }
      (fun _ => false) false (by decide)).2.1 rfl rfl⟩

/-- Counterexample to C1 as stated: a job call that arrives while the
status is already `Busy` (the Teleport control stays enabled during the
3-second remote window, so this is reachable) takes the local path and
still reports status `Busy` after it completes — for both values of
`requestedRemote`. -/
theorem C1_counterexample :
    ({ initState with hardwareStatus := HardwareStatus.BUSY } : AppState).hardwareStatus
        = HardwareStatus.BUSY ∧
    (runJob true { initState with hardwareStatus := HardwareStatus.BUSY }
        (fun _ => false) false).hardwareStatus = HardwareStatus.BUSY ∧
    (runJob false { initState with hardwareStatus := HardwareStatus.BUSY }
        (fun _ => false) false).hardwareStatus = HardwareStatus.BUSY := by
  refine ⟨rfl, ?_, rfl⟩
  simp [runJob, executeRealTeleport, runLocalSimulation]

/-- C9: the event-log entries written by an authentication attempt do not
depend on the credential (two runs with different non-empty credentials
and the same network outcome produce identical logs, so no entry can
contain the credential), and the logged diagnostics are truncated: the
session-identifier preview to at most 8 characters and the rejection body
to at most 50 characters. -/
theorem C9_no_credential_leak (s1 s2 : AppState) (r : AuthResult)
    (h1 : s1.ibmToken ≠ "") (h2 : s2.ibmToken ≠ "") (hl : s1.logs = s2.logs) :
    (connectToIBM s1 r).logs = (connectToIBM s2 r).logs ∧
    (∀ sid : String,
      (connectToIBM s1 (AuthResult.ok sid)).logs.head?
        = some ⟨"IBM", "Authentication Successful.",
                some ("Access_ID: " ++ sid.take 8 ++ "...")⟩ ∧
      (sid.take 8).length ≤ 8) ∧
    (∀ st (errText : String),
      (connectToIBM s1 (AuthResult.rejected st errText)).logs.head?
        = some ⟨"ERR", "IBM Rejected Token [" ++ toString st ++ "]",
                some (errText.take 50)⟩ ∧
      (errText.take 50).length ≤ 50) := by
  refine ⟨?_, fun sid => ⟨?_, ?_⟩, fun st errText => ⟨?_, ?_⟩⟩
  · cases r <;> simp [connectToIBM, h1, h2, hl]
  · simp [connectToIBM, h1, addLog_head]
  · rw [String.take_eq]
    show (sid.1.take 8).length ≤ 8
    simp [List.length_take]
  · simp [connectToIBM, h1, addLog_head]
  · rw [String.take_eq]
    show (errText.1.take 50).length ≤ 50
    simp [List.length_take]

/-- Witness for C9 with two different concrete credentials. -/
theorem C9_no_credential_leak_witness :
    (({ initState with ibmToken := "secret-token-one" } : AppState).ibmToken ≠ "" ∧
      ({ initState with ibmToken := "t2" } : AppState).ibmToken ≠ "" ∧
      ({ initState with ibmToken := "secret-token-one" } : AppState).logs
        = ({ initState with ibmToken := "t2" } : AppState).logs) ∧
    (connectToIBM { initState with ibmToken := "secret-token-one" }
        AuthResult.networkError).logs
      = (connectToIBM { initState with ibmToken := "t2" }
        AuthResult.networkError).logs :=
  ⟨⟨by decide, by decide, rfl⟩,
    (C9_no_credential_leak { initState with ibmToken := "secret-token-one" }
      { initState with ibmToken := "t2" } AuthResult.networkError
      (by decide) (by decide) rfl).1⟩

end ParagonView
